import Mathlib

/-!
Shallow embedding of `main.go` from `wtfsayo/go-llm-proxy`.

The repository holds two revisions of the same single-file program,
separated in the corpus by a document marker:
  * revision A (lines 1-191): debug logging, required-environment-variable
    checks, customized reverse-proxy hooks (director logging, a 502 error
    handler, a response logger), streaming pass-through guarded by an
    `http.Flusher` check, listening port from `PORT` with default `8080`;
  * revision B (lines 192-320): no environment check, forces `stream` to
    `true`, buffers the upstream response with `httptest.NewRecorder` and
    replays status/headers/body, plain `NewSingleHostReverseProxy` with no
    custom hooks, listening port fixed at `443`.

Strings are Lean `String`s; JSON documents are modelled as an inductive
`Json` value (numbers as `Int`: none of the rewritten fields is
fractional).  JSON objects are association lists of fields; Go's
`encoding/json` decodes duplicate top-level keys with last-wins semantics,
which `lookupLast` mirrors.  The free-form `messages` entries
(`[]map[string]interface{}` in Go) round-trip through `interface{}`
values; at the JSON-value level this is the identity on object/null
elements, which is how the model treats them.
-/

/-- JSON values, numbers restricted to integers (sufficient for every
field the program reads or writes). -/
inductive Json where
  | null
  | bool (b : Bool)
  | num (n : Int)
  | str (s : String)
  | arr (elems : List Json)
  | obj (fields : List (String × Json))

/-- Go struct `RequestBody` from `main.go` (identical in both revisions):
`Messages []map[string]interface{}`, `Model string`, `Stream bool`,
`MaxTokens int`, `System string`, all tagged `omitempty` except
`Messages`.  `messages = none` models the nil slice (absent or null in
the inbound JSON). -/
structure RequestBody where
  messages : Option (List Json)
  model : String
  stream : Bool
  max_tokens : Int
  system : String

instance : Inhabited RequestBody := ⟨⟨none, "", false, 0, ""⟩⟩

/-- Last-wins lookup of a key in a JSON object's field list, matching
`encoding/json`'s behaviour on duplicate keys when decoding into a
struct. -/
def lookupLast (k : String) : List (String × Json) → Option Json
  | [] => none
  | (k', v) :: rest =>
    match lookupLast k rest with
    | some r => some r
    | none => if k' = k then some v else none

/-- First-match lookup of a key in a JSON object's field list (the
serializer below never emits duplicate keys, so first-match equals
last-wins on its output). -/
def lookupField (k : String) : List (String × Json) → Option Json
  | [] => none
  | (k', v) :: rest => if k' = k then some v else lookupField k rest

/-- Decoding a JSON value into a Go `string` field: absent and `null`
leave the zero value `""`; a string is taken verbatim; anything else is
an `UnmarshalTypeError`. -/
def decodeString : Option Json → Option String
  | none => some ""
  | some Json.null => some ""
  | some (Json.str s) => some s
  | some _ => none

/-- Decoding a JSON value into a Go `bool` field. -/
def decodeBool : Option Json → Option Bool
  | none => some false
  | some Json.null => some false
  | some (Json.bool b) => some b
  | some _ => none

/-- Decoding a JSON value into a Go `int` field. -/
def decodeInt : Option Json → Option Int
  | none => some 0
  | some Json.null => some 0
  | some (Json.num n) => some n
  | some _ => none

/-- An element of the `messages` array must decode into
`map[string]interface{}`: a JSON object or `null` (nil map). -/
def isMsgElem : Json → Bool
  | Json.obj _ => true
  | Json.null => true
  | _ => false

/-- Decoding the `messages` field into `[]map[string]interface{}`:
absent and `null` give the nil slice; an array is accepted when every
element is an object or `null`. -/
def decodeMessages : Option Json → Option (Option (List Json))
  | none => some none
  | some Json.null => some none
  | some (Json.arr xs) => if xs.all isMsgElem then some (some xs) else none
  | some _ => none

/-- Model of `json.Unmarshal(body, &reqBody)` for the fixed `RequestBody` schema:
the document must be an object (or `null`, which leaves the zero struct);
unknown keys are ignored; a type mismatch on any schema key is an
error. -/
def unmarshalRequestBody : Json → Option RequestBody
  | Json.null => some default
  | Json.obj fields =>
    match decodeMessages (lookupLast "messages" fields) with
    | none => none
    | some msgs =>
      match decodeString (lookupLast "model" fields) with
      | none => none
      | some model =>
        match decodeBool (lookupLast "stream" fields) with
        | none => none
        | some stream =>
          match decodeInt (lookupLast "max_tokens" fields) with
          | none => none
          | some mt =>
            match decodeString (lookupLast "system" fields) with
            | none => none
            | some sys => some ⟨msgs, model, stream, mt, sys⟩
  | _ => none

/-- Field list produced by `json.Marshal(reqBody)`: struct order
`messages, model, stream, max_tokens, system`; `messages` has no
`omitempty` (nil slice encodes as `null`), the other four are dropped at
their zero values. -/
def marshalFields (b : RequestBody) : List (String × Json) :=
  [("messages", match b.messages with
    | none => Json.null
    | some xs => Json.arr xs)]
  ++ (if b.model = "" then [] else [("model", Json.str b.model)])
  ++ (if b.stream then [("stream", Json.bool true)] else [])
  ++ (if b.max_tokens = 0 then [] else [("max_tokens", Json.num b.max_tokens)])
  ++ (if b.system = "" then [] else [("system", Json.str b.system)])

/-- Model of `json.Marshal(reqBody)` as a JSON value. -/
def marshalRequestBody (b : RequestBody) : Json :=
  Json.obj (marshalFields b)

/-- Model of `strings.HasPrefix` on character lists. -/
def hasPrefixL : List Char → List Char → Bool
  | _, [] => true
  | [], _ :: _ => false
  | c :: s, p :: ps => c = p && hasPrefixL s ps

/-- Model of `strings.HasPrefix(s, pre)` on strings. -/
def hasPrefixStr (s pre : String) : Bool :=
  hasPrefixL s.data pre.data

/-- The path-routing `switch` shared verbatim by both revisions
(revision A lines 94-104, revision B lines 243-252): the
`/anthropic/v1/messages` case is tested first, then
`/v1/chat/completions`; `none` is the `default` branch (`Unknown
endpoint`). -/
def routeRewrite (path : String) (b : RequestBody) : Option RequestBody :=
  if hasPrefixStr path "/anthropic/v1/messages" then
    some { b with model := "sw-claude-3-5-sonnet", max_tokens := 2048 }
  else if hasPrefixStr path "/v1/chat/completions" then
    some { b with model := "sw-gpt-4o" }
  else
    none

/-- Lines 254-256 of revision B: `if reqBody.Stream == false { reqBody.Stream = true }`. -/
def forceStream (b : RequestBody) : RequestBody :=
  if b.stream = false then { b with stream := true } else b

/-- The process environment values the handlers read via `os.Getenv`. -/
structure Env where
  host : String
  x_id : String
  x_signature : String
  user_agent : String
  x_license : String

/-- Revision A lines 64-71: the required-variable list, in source order. -/
def requiredEnvVars (env : Env) : List (String × String) :=
  [("HOST", env.host), ("X_ID", env.x_id), ("X_SIGNATURE", env.x_signature),
   ("USER_AGENT", env.user_agent), ("X_LICENSE", env.x_license)]

/-- The first required environment variable whose value is empty, if any
(the loop in revision A reports the first one and returns). -/
def missingEnvVar (env : Env) : Option String :=
  ((requiredEnvVars env).find? (fun p => p.2 == "")).map (·.1)

/-- Model of `http.Header.Set`: replace every value stored under the key (header
names are taken already in canonical form, as Go's `Set`/`Get`
canonicalize both sides). -/
def setHeader (hs : List (String × String)) (k v : String) : List (String × String) :=
  (k, v) :: hs.filter (fun p => p.1 != k)

/-- Model of `http.Header.Get`. -/
def getHeader (hs : List (String × String)) (k : String) : Option String :=
  (hs.find? (fun p => p.1 == k)).map (·.2)

/-- The ten header assignments (revision A lines 120-131 as a map literal,
revision B lines 270-279 as successive `Set` calls); the keys are
pairwise distinct, so the iteration order of revision A's map does not
affect the resulting header map. -/
def headerAssignments (env : Env) : List (String × String) :=
  [("Host", env.host),
   ("Content-Type", "application/json"),
   ("X-ID", env.x_id),
   ("X-Signature", env.x_signature),
   ("Accept", "*/*"),
   ("Connection", "keep-alive"),
   ("User-Agent", env.user_agent),
   ("X-License", env.x_license),
   ("Accept-Encoding", "br;q=1.0, gzip;q=0.9, deflate;q=0.8"),
   ("Accept-Language", "en-US;q=1.0, en-IN;q=0.9")]

/-- Applying all ten `Set` calls to the inbound header map.  (The
`Content-Length` header, set earlier from the re-encoded body's byte
length, is not modelled: the model does not serialize JSON to bytes and
no claim mentions it.) -/
def outboundHeaders (env : Env) (hs : List (String × String)) : List (String × String) :=
  (headerAssignments env).foldl (fun acc kv => setHeader acc kv.1 kv.2) hs

/-- Outcome of reading the inbound request body: `io.ReadAll` failure,
bytes that are not valid JSON, or a parsed JSON document. -/
inductive Body where
  | readError
  | malformed
  | json (j : Json)

/-- The parts of the inbound `*http.Request` the handlers inspect. -/
structure Request where
  path : String
  headers : List (String × String)
  body : Body

/-- The rewritten request as handed to `proxy.ServeHTTP`. -/
structure Forwarded where
  host : String
  path : String
  headers : List (String × String)
  body : Json
  streaming : Bool

/-- What a handler does with one inbound request: answer the caller
directly with `http.Error(w, msg, status)`, or forward the rewritten
request upstream. -/
inductive HandlerResult where
  | localError (status : Nat) (msg : String)
  | forward (f : Forwarded)

/-- Revision A's `proxyHandler` (lines 59-166).  `canFlush` is whether
`w.(http.Flusher)` succeeds.  The `json.Marshal` error branch (lines
107-111) is unreachable in the model: marshalling the fixed schema
cannot fail (every value stored in it came from `json.Unmarshal`).
The client-side streaming headers set at lines 147-150 are not modelled;
`streaming` records which `ServeHTTP` branch runs. -/
def proxyHandlerA (env : Env) (canFlush : Bool) (r : Request) : HandlerResult :=
  match missingEnvVar env with
  | some v => .localError 500 ("Missing required environment variable: " ++ v)
  | none =>
    match r.body with
    | .readError => .localError 500 "Failed to read request body"
    | .malformed => .localError 400 "Invalid JSON in request body"
    | .json j =>
      match unmarshalRequestBody j with
      | none => .localError 400 "Invalid JSON in request body"
      | some reqBody =>
        -- `originalStream := reqBody.Stream` (line 91); revision A never
        -- mutates `Stream`, so `originalStream` is `reqBody.stream` here.
        match routeRewrite r.path reqBody with
        | none => .localError 400 "Unknown endpoint"
        | some rewritten =>
          if reqBody.stream && !canFlush then
            .localError 500 "Streaming not supported"
          else
            .forward ⟨env.host, r.path, outboundHeaders env r.headers,
                      marshalRequestBody rewritten, reqBody.stream⟩

/-- Revision B's `proxyHandler` (lines 225-310) up to the upstream call:
no environment check, `stream` forced to `true` after routing, response
buffered (never the streaming branch).  As in revision A, the
`json.Marshal` error branch is unreachable in the model. -/
def proxyHandlerB (env : Env) (r : Request) : HandlerResult :=
  match r.body with
  | .readError => .localError 500 "Failed to read request body"
  | .malformed => .localError 400 "Invalid JSON in request body"
  | .json j =>
    match unmarshalRequestBody j with
    | none => .localError 400 "Invalid JSON in request body"
    | some reqBody =>
      match routeRewrite r.path reqBody with
      | none => .localError 400 "Unknown endpoint"
      | some routed =>
        .forward ⟨env.host, r.path, outboundHeaders env r.headers,
                  marshalRequestBody (forceStream routed), false⟩

/-- The request body as the handlers see it after `io.ReadAll` and
`json.Unmarshal`: `none` when reading or parsing fails. -/
def parsedBody : Body → Option RequestBody
  | Body.json j => unmarshalRequestBody j
  | _ => none

/-- Both revisions build `targetURL := "https://" + os.Getenv("HOST") + r.URL.Path`. -/
def targetURL (env : Env) (path : String) : String :=
  "https://" ++ env.host ++ path

/-- Scheme, host and path of a parsed URL. -/
structure OutboundTarget where
  scheme : String
  host : String
  path : String

/-- Modelled from the standard library: `url.Parse` on an
`https://host/path` URL splits the part after the scheme at the first
`/` into authority and path. -/
def parseHttpsURL (u : String) : OutboundTarget :=
  let rest := (u.data.drop 8)
  ⟨"https", String.mk (rest.takeWhile (fun c => c ≠ '/')),
    String.mk (rest.dropWhile (fun c => c ≠ '/'))⟩

/-- Modelled from the standard library: `singleJoiningSlash` in
`net/http/httputil`, used by `NewSingleHostReverseProxy`'s director to
join the target's base path with the inbound request path. -/
def singleJoiningSlash (a b : String) : String :=
  let aslash := a.data.getLast? = some '/'
  let bslash := b.data.head? = some '/'
  if aslash && bslash then a ++ String.mk b.data.tail
  else if !aslash && !bslash then a ++ "/" ++ b
  else a ++ b

/-- Modelled from the standard library: the director installed by
`httputil.NewSingleHostReverseProxy(target)` sets the outbound URL's
scheme and host from `target` and its path to
`singleJoiningSlash(target.Path, req.URL.Path)`. -/
def directorRewrite (target : OutboundTarget) (reqPath : String) : OutboundTarget :=
  ⟨target.scheme, target.host, singleJoiningSlash target.path reqPath⟩

/-- The URL actually requested upstream for a forwarded request: both
revisions call `createProxy(targetURL)` and the proxy's director then
rewrites the (unchanged) inbound URL. -/
def upstreamURL (env : Env) (reqPath : String) : OutboundTarget :=
  directorRewrite (parseHttpsURL (targetURL env reqPath)) reqPath

/-- Behaviour of the `ErrorHandler` installed by revision A's
`createProxy` (lines 44-47): `http.Error(w, "Proxy error: ...",
http.StatusBadGateway)`. -/
def errorHandlerA (errMsg : String) : Nat × String :=
  (502, "Proxy error: " ++ errMsg)

/-- The customizations `createProxy` applies to the
`httputil.ReverseProxy` it returns. -/
structure ProxyHooks where
  directorLogs : Bool
  errorHandler : Option (String → Nat × String)
  modifiesResponse : Bool

/-- Revision A's `createProxy` (lines 29-57): logging director, the 502
error handler, a logging `ModifyResponse`. -/
def proxyHooksA : ProxyHooks := ⟨true, some errorHandlerA, true⟩

/-- Revision B's `createProxy` (lines 217-223): the plain
`NewSingleHostReverseProxy`, no hooks installed. -/
def proxyHooksB : ProxyHooks := ⟨false, none, false⟩

/-- The upstream response as recorded by revision B's
`httptest.NewRecorder`; `body = none` models `io.ReadAll(resp.Body)`
failing. -/
structure UpResponse where
  status : Nat
  headers : List (String × String)
  body : Option String

/-- What revision B sends back to its caller. -/
inductive ReplayResult where
  | localError (status : Nat) (msg : String)
  | replayed (status : Nat) (headers : List (String × String)) (body : String)

/-- Revision B lines 287-309: read the recorded upstream response fully,
then copy its headers, status code and body to the caller. -/
def replayResponse (resp : UpResponse) : ReplayResult :=
  match resp.body with
  | none => .localError 500 "Failed to read response body"
  | some b => .replayed resp.status resp.headers b

/-- Revision A lines 179-182: `PORT` environment value, defaulting to
`"8080"` when empty. -/
def resolvePortA (envPort : String) : String :=
  if envPort = "" then "8080" else envPort

/-- Revision B line 317: `http.ListenAndServe(":443", nil)`. -/
def portB : String := "443"

/-- Paths registered on the default mux by both revisions:
`http.HandleFunc("/v1/", proxyHandler)` and
`http.HandleFunc("/anthropic/", proxyHandler)`. -/
def muxMatches (path : String) : Bool :=
  hasPrefixStr path "/v1/" || hasPrefixStr path "/anthropic/"

theorem find?_filter_of_imp {α} (p q : α → Bool) (l : List α)
    (h : ∀ x, p x = true → q x = true) :
    (l.filter q).find? p = l.find? p := by
  induction l with
  | nil => rfl
  | cons a t ih =>
    by_cases hp : p a = true
    · rw [List.filter_cons, h a hp]
      simp [List.find?, hp, ih]
    · rw [List.filter_cons]
      by_cases hq : q a = true
      · simp [hq, List.find?, hp, ih]
      · simp [hq, List.find?, hp, ih]

theorem getHeader_setHeader (hs : List (String × String)) (k v k' : String) :
    getHeader (setHeader hs k v) k' = if k' = k then some v else getHeader hs k' := by
  by_cases h : k' = k
  · subst h
    simp [getHeader, setHeader, List.find?]
  · rw [if_neg h]
    unfold getHeader setHeader
    rw [List.find?]
    have hk : (k == k') = false := beq_eq_false_iff_ne.2 fun e => h e.symm
    simp only [hk]
    rw [find?_filter_of_imp]
    intro x hx
    rw [beq_iff_eq] at hx
    rw [bne_iff_ne, hx]
    exact h

theorem hasPrefixL_iff (p s : List Char) : hasPrefixL s p = true ↔ s.take p.length = p := by
  induction p generalizing s with
  | nil => simp [hasPrefixL]
  | cons c ps ih =>
    cases s with
    | nil => simp [hasPrefixL]
    | cons a t => simp [hasPrefixL, ih, List.take]

theorem chat_not_anthro (path : String)
    (h : hasPrefixStr path "/v1/chat/completions" = true) :
    hasPrefixStr path "/anthropic/v1/messages" = false := by
  unfold hasPrefixStr at h ⊢
  rw [hasPrefixL_iff] at h
  rw [show ("/v1/chat/completions".data.length) = 20 from rfl] at h
  by_contra hne
  rw [Bool.not_eq_false, hasPrefixL_iff] at hne
  have h20 := congrArg (List.take 20) hne
  rw [List.take_take] at h20
  norm_num at h20
  rw [h] at h20
  exact absurd h20 (by decide)

theorem outboundHeaders_eq (env : Env) (hs : List (String × String)) :
    outboundHeaders env hs =
      setHeader (setHeader (setHeader (setHeader (setHeader (setHeader (setHeader (setHeader
        (setHeader (setHeader hs "Host" env.host) "Content-Type" "application/json")
        "X-ID" env.x_id) "X-Signature" env.x_signature) "Accept" "*/*")
        "Connection" "keep-alive") "User-Agent" env.user_agent) "X-License" env.x_license)
        "Accept-Encoding" "br;q=1.0, gzip;q=0.9, deflate;q=0.8")
        "Accept-Language" "en-US;q=1.0, en-IN;q=0.9" := rfl

theorem getHeader_outbound_Host (env : Env) (hs : List (String × String)) :
    getHeader (outboundHeaders env hs) "Host" = some env.host := by
  rw [outboundHeaders_eq]
  simp [getHeader_setHeader]

theorem lookupField_append (k : String) (l1 l2 : List (String × Json)) :
    lookupField k (l1 ++ l2) =
      match lookupField k l1 with
      | some v => some v
      | none => lookupField k l2 := by
  induction l1 with
  | nil => simp [lookupField]
  | cons p t ih =>
    rw [List.cons_append]
    rw [lookupField, lookupField]
    by_cases h : p.1 = k
    · simp [h]
    · simp [h, ih]

theorem marshal_lookup_model (b : RequestBody) :
    lookupField "model" (marshalFields b) =
      if b.model = "" then none else some (Json.str b.model) := by
  unfold marshalFields
  rw [lookupField_append, lookupField_append, lookupField_append, lookupField_append]
  by_cases hm : b.model = ""
  all_goals by_cases hs : b.stream
  all_goals by_cases ht : b.max_tokens = 0
  all_goals by_cases hy : b.system = ""
  all_goals simp [hm, hs, ht, hy, lookupField]

theorem marshal_lookup_messages (b : RequestBody) :
    lookupField "messages" (marshalFields b) =
      some (match b.messages with | none => Json.null | some xs => Json.arr xs) := by
  unfold marshalFields
  rw [lookupField_append]
  simp [lookupField]

theorem marshal_lookup_stream (b : RequestBody) :
    lookupField "stream" (marshalFields b) =
      if b.stream then some (Json.bool true) else none := by
  unfold marshalFields
  rw [lookupField_append, lookupField_append, lookupField_append, lookupField_append]
  by_cases hm : b.model = ""
  all_goals by_cases hs : b.stream
  all_goals by_cases ht : b.max_tokens = 0
  all_goals by_cases hy : b.system = ""
  all_goals simp [hm, hs, ht, hy, lookupField]

theorem marshal_lookup_max_tokens (b : RequestBody) :
    lookupField "max_tokens" (marshalFields b) =
      if b.max_tokens = 0 then none else some (Json.num b.max_tokens) := by
  unfold marshalFields
  rw [lookupField_append, lookupField_append, lookupField_append, lookupField_append]
  by_cases hm : b.model = ""
  all_goals by_cases hs : b.stream
  all_goals by_cases ht : b.max_tokens = 0
  all_goals by_cases hy : b.system = ""
  all_goals simp [hm, hs, ht, hy, lookupField]

theorem marshal_lookup_system (b : RequestBody) :
    lookupField "system" (marshalFields b) =
      if b.system = "" then none else some (Json.str b.system) := by
  unfold marshalFields
  rw [lookupField_append, lookupField_append, lookupField_append, lookupField_append]
  by_cases hm : b.model = ""
  all_goals by_cases hs : b.stream
  all_goals by_cases ht : b.max_tokens = 0
  all_goals by_cases hy : b.system = ""
  all_goals simp [hm, hs, ht, hy, lookupField]

theorem marshal_lookup_other (b : RequestBody) (k : String)
    (h : k ∉ (["messages", "model", "stream", "max_tokens", "system"] : List String)) :
    lookupField k (marshalFields b) = none := by
  simp at h
  obtain ⟨h1, h2, h3, h4, h5⟩ := h
  have g1 : ("messages" = k) = False := eq_false fun e => h1 e.symm
  have g2 : ("model" = k) = False := eq_false fun e => h2 e.symm
  have g3 : ("stream" = k) = False := eq_false fun e => h3 e.symm
  have g4 : ("max_tokens" = k) = False := eq_false fun e => h4 e.symm
  have g5 : ("system" = k) = False := eq_false fun e => h5 e.symm
  unfold marshalFields
  rw [lookupField_append, lookupField_append, lookupField_append, lookupField_append]
  by_cases hm : b.model = ""
  all_goals by_cases hs : b.stream
  all_goals by_cases ht : b.max_tokens = 0
  all_goals by_cases hy : b.system = ""
  all_goals simp [hm, hs, ht, hy, lookupField, g1, g2, g3, g4, g5]

theorem outboundHeaders_spec (env : Env) (hs : List (String × String)) :
    getHeader (outboundHeaders env hs) "Host" = some env.host ∧
    getHeader (outboundHeaders env hs) "Content-Type" = some "application/json" ∧
    getHeader (outboundHeaders env hs) "X-ID" = some env.x_id ∧
    getHeader (outboundHeaders env hs) "X-Signature" = some env.x_signature ∧
    getHeader (outboundHeaders env hs) "Accept" = some "*/*" ∧
    getHeader (outboundHeaders env hs) "Connection" = some "keep-alive" ∧
    getHeader (outboundHeaders env hs) "User-Agent" = some env.user_agent ∧
    getHeader (outboundHeaders env hs) "X-License" = some env.x_license ∧
    getHeader (outboundHeaders env hs) "Accept-Encoding" = some "br;q=1.0, gzip;q=0.9, deflate;q=0.8" ∧
    getHeader (outboundHeaders env hs) "Accept-Language" = some "en-US;q=1.0, en-IN;q=0.9" := by
  rw [outboundHeaders_eq]
  refine ⟨?_, ?_, ?_, ?_, ?_, ?_, ?_, ?_, ?_, ?_⟩
  all_goals simp [getHeader_setHeader]

theorem proxyHandlerA_forward_inv (env : Env) (cf : Bool) (r : Request) (f : Forwarded)
    (h : proxyHandlerA env cf r = .forward f) :
    missingEnvVar env = none ∧
    ∃ rb rw, parsedBody r.body = some rb ∧ routeRewrite r.path rb = some rw ∧
      f = ⟨env.host, r.path, outboundHeaders env r.headers, marshalRequestBody rw, rb.stream⟩ := by
  unfold proxyHandlerA at h
  split at h
  · exact absurd h (by simp)
  · rename_i henv
    split at h
    · exact absurd h (by simp)
    · exact absurd h (by simp)
    · rename_i j
      rename_i j hj
      split at h
      · exact absurd h (by simp)
      · rename_i rb hrb
        split at h
        · exact absurd h (by simp)
        · rename_i rw hrw
          split at h
          · exact absurd h (by simp)
          · refine ⟨henv, rb, rw, by simp_all [parsedBody], hrw, ?_⟩
            cases h
            rfl

theorem proxyHandlerB_forward_inv (env : Env) (r : Request) (f : Forwarded)
    (h : proxyHandlerB env r = .forward f) :
    ∃ rb rw, parsedBody r.body = some rb ∧ routeRewrite r.path rb = some rw ∧
      f = ⟨env.host, r.path, outboundHeaders env r.headers,
           marshalRequestBody (forceStream rw), false⟩ := by
  unfold proxyHandlerB at h
  split at h
  · exact absurd h (by simp)
  · exact absurd h (by simp)
  · split at h
    · exact absurd h (by simp)
    · rename_i rb hrb
      split at h
      · exact absurd h (by simp)
      · rename_i rw hrw
        refine ⟨rb, rw, by simp_all [parsedBody], hrw, ?_⟩
        cases h
        rfl

theorem proxyHandlerB_localError_iff (env : Env) (r : Request) (s : Nat) (m : String) :
    proxyHandlerB env r = .localError s m ↔
      (r.body = .readError ∧ s = 500 ∧ m = "Failed to read request body") ∨
      (r.body ≠ .readError ∧ parsedBody r.body = none ∧ s = 400 ∧
        m = "Invalid JSON in request body") ∨
      (∃ rb, parsedBody r.body = some rb ∧ routeRewrite r.path rb = none ∧
        s = 400 ∧ m = "Unknown endpoint") := by
  constructor
  · intro h
    unfold proxyHandlerB at h
    rcases hbody : r.body with _ | _ | j <;> rw [hbody] at h <;> dsimp only at h
    · rw [HandlerResult.localError.injEq] at h
      exact Or.inl ⟨rfl, h.1.symm, h.2.symm⟩
    · rw [HandlerResult.localError.injEq] at h
      exact Or.inr (Or.inl ⟨by simp, by simp [parsedBody], h.1.symm, h.2.symm⟩)
    · rcases hu : unmarshalRequestBody j with _ | rb <;> rw [hu] at h <;> dsimp only at h
      · rw [HandlerResult.localError.injEq] at h
        exact Or.inr (Or.inl ⟨by simp, by simp [parsedBody, hu], h.1.symm, h.2.symm⟩)
      · rcases hr : routeRewrite r.path rb with _ | rw' <;> rw [hr] at h <;> dsimp only at h
        · rw [HandlerResult.localError.injEq] at h
          exact Or.inr (Or.inr ⟨rb, by simp [parsedBody, hu], hr, h.1.symm, h.2.symm⟩)
        · exact absurd h (by simp)
  · intro h
    rcases h with ⟨hb, hs, hm⟩ | ⟨hb, hp, hs, hm⟩ | ⟨rb, hp, hr, hs, hm⟩
    · subst hs; subst hm
      unfold proxyHandlerB
      rw [hb]
    · subst hs; subst hm
      unfold proxyHandlerB
      rcases hbody : r.body with _ | _ | j
      · exact absurd hbody hb
      · rfl
      · rw [hbody] at hp
        dsimp only [parsedBody] at hp
        dsimp only
        rw [hp]
    · subst hs; subst hm
      unfold proxyHandlerB
      rcases hbody : r.body with _ | _ | j
      · rw [hbody] at hp; exact absurd hp (by simp [parsedBody])
      · rw [hbody] at hp; exact absurd hp (by simp [parsedBody])
      · rw [hbody] at hp
        dsimp only [parsedBody] at hp
        dsimp only
        rw [hp]
        dsimp only
        rw [hr]

theorem proxyHandlerA_localError_iff (env : Env) (cf : Bool) (r : Request) (s : Nat) (m : String) :
    proxyHandlerA env cf r = .localError s m ↔
      (∃ v, missingEnvVar env = some v ∧ s = 500 ∧
        m = "Missing required environment variable: " ++ v) ∨
      (missingEnvVar env = none ∧ r.body = .readError ∧ s = 500 ∧
        m = "Failed to read request body") ∨
      (missingEnvVar env = none ∧ r.body ≠ .readError ∧ parsedBody r.body = none ∧
        s = 400 ∧ m = "Invalid JSON in request body") ∨
      (missingEnvVar env = none ∧ ∃ rb, parsedBody r.body = some rb ∧
        routeRewrite r.path rb = none ∧ s = 400 ∧ m = "Unknown endpoint") ∨
      (missingEnvVar env = none ∧ ∃ rb rw, parsedBody r.body = some rb ∧
        routeRewrite r.path rb = some rw ∧ rb.stream = true ∧ cf = false ∧
        s = 500 ∧ m = "Streaming not supported") := by
  constructor
  · intro h
    unfold proxyHandlerA at h
    rcases henv : missingEnvVar env with _ | v <;> rw [henv] at h <;> dsimp only at h
    case some =>
      rw [HandlerResult.localError.injEq] at h
      exact Or.inl ⟨v, rfl, h.1.symm, h.2.symm⟩
    rcases hbody : r.body with _ | _ | j <;> rw [hbody] at h <;> dsimp only at h
    · rw [HandlerResult.localError.injEq] at h
      exact Or.inr (Or.inl ⟨rfl, rfl, h.1.symm, h.2.symm⟩)
    · rw [HandlerResult.localError.injEq] at h
      exact Or.inr (Or.inr (Or.inl ⟨rfl, by simp, by simp [parsedBody], h.1.symm, h.2.symm⟩))
    · rcases hu : unmarshalRequestBody j with _ | rb <;> rw [hu] at h <;> dsimp only at h
      · rw [HandlerResult.localError.injEq] at h
        exact Or.inr (Or.inr (Or.inl ⟨rfl, by simp, by simp [parsedBody, hu],
          h.1.symm, h.2.symm⟩))
      · rcases hr : routeRewrite r.path rb with _ | rw' <;> rw [hr] at h <;> dsimp only at h
        · rw [HandlerResult.localError.injEq] at h
          exact Or.inr (Or.inr (Or.inr (Or.inl
            ⟨rfl, rb, by simp [parsedBody, hu], hr, h.1.symm, h.2.symm⟩)))
        · by_cases hst : (rb.stream && !cf) = true
          · rw [if_pos hst] at h
            rw [HandlerResult.localError.injEq] at h
            rw [Bool.and_eq_true, Bool.not_eq_true'] at hst
            exact Or.inr (Or.inr (Or.inr (Or.inr
              ⟨rfl, rb, rw', by simp [parsedBody, hu], hr, hst.1, hst.2,
               h.1.symm, h.2.symm⟩)))
          · rw [if_neg hst] at h
            exact absurd h (by simp)
  · intro h
    rcases h with ⟨v, he, hs, hm⟩ | ⟨he, hb, hs, hm⟩ | ⟨he, hb, hp, hs, hm⟩ |
      ⟨he, rb, hp, hr, hs, hm⟩ | ⟨he, rb, rw', hp, hr, hst, hcf, hs, hm⟩
    · subst hs; subst hm
      unfold proxyHandlerA
      rw [he]
    · subst hs; subst hm
      unfold proxyHandlerA
      rw [he]
      dsimp only
      rw [hb]
    · subst hs; subst hm
      unfold proxyHandlerA
      rw [he]
      dsimp only
      rcases hbody : r.body with _ | _ | j
      · exact absurd hbody hb
      · rfl
      · rw [hbody] at hp
        dsimp only [parsedBody] at hp
        dsimp only
        rw [hp]
    · subst hs; subst hm
      unfold proxyHandlerA
      rw [he]
      dsimp only
      rcases hbody : r.body with _ | _ | j
      · rw [hbody] at hp; exact absurd hp (by simp [parsedBody])
      · rw [hbody] at hp; exact absurd hp (by simp [parsedBody])
      · rw [hbody] at hp
        dsimp only [parsedBody] at hp
        dsimp only
        rw [hp]
        dsimp only
        rw [hr]
    · subst hs; subst hm; subst hcf
      unfold proxyHandlerA
      rw [he]
      dsimp only
      rcases hbody : r.body with _ | _ | j
      · rw [hbody] at hp; exact absurd hp (by simp [parsedBody])
      · rw [hbody] at hp; exact absurd hp (by simp [parsedBody])
      · rw [hbody] at hp
        dsimp only [parsedBody] at hp
        dsimp only
        rw [hp]
        dsimp only
        rw [hr]
        dsimp only
        rw [hst]
        rfl

theorem unmarshal_obj_inv (fs : List (String × Json)) (rb : RequestBody)
    (h : unmarshalRequestBody (Json.obj fs) = some rb) :
    decodeMessages (lookupLast "messages" fs) = some rb.messages ∧
    decodeString (lookupLast "model" fs) = some rb.model ∧
    decodeBool (lookupLast "stream" fs) = some rb.stream ∧
    decodeInt (lookupLast "max_tokens" fs) = some rb.max_tokens ∧
    decodeString (lookupLast "system" fs) = some rb.system := by
  unfold unmarshalRequestBody at h
  dsimp only at h
  rcases h1 : decodeMessages (lookupLast "messages" fs) with _ | msgs <;> rw [h1] at h <;>
    dsimp only at h
  · exact absurd h (by simp)
  rcases h2 : decodeString (lookupLast "model" fs) with _ | model <;> rw [h2] at h <;>
    dsimp only at h
  · exact absurd h (by simp)
  rcases h3 : decodeBool (lookupLast "stream" fs) with _ | stream <;> rw [h3] at h <;>
    dsimp only at h
  · exact absurd h (by simp)
  rcases h4 : decodeInt (lookupLast "max_tokens" fs) with _ | mt <;> rw [h4] at h <;>
    dsimp only at h
  · exact absurd h (by simp)
  rcases h5 : decodeString (lookupLast "system" fs) with _ | sys <;> rw [h5] at h <;>
    dsimp only at h
  · exact absurd h (by simp)
  rw [Option.some.injEq] at h
  subst h
  exact ⟨rfl, rfl, rfl, rfl, rfl⟩

theorem routeRewrite_frame (path : String) (rb b' : RequestBody)
    (h : routeRewrite path rb = some b') :
    b'.messages = rb.messages ∧ b'.stream = rb.stream ∧ b'.system = rb.system := by
  unfold routeRewrite at h
  split at h
  · rw [Option.some.injEq] at h
    subst h
    exact ⟨rfl, rfl, rfl⟩
  · split at h
    · rw [Option.some.injEq] at h
      subst h
      exact ⟨rfl, rfl, rfl⟩
    · exact absurd h (by simp)

theorem routeRewrite_max_tokens_chat (path : String) (rb b' : RequestBody)
    (hc : hasPrefixStr path "/v1/chat/completions" = true)
    (h : routeRewrite path rb = some b') :
    b'.max_tokens = rb.max_tokens := by
  unfold routeRewrite at h
  rw [chat_not_anthro path hc] at h
  rw [hc] at h
  simp at h
  subst h
  rfl

/-- C1: a path with the `/anthropic/v1/messages` prefix has `model` set to
`"sw-claude-3-5-sonnet"` and `max_tokens` to `2048`; a path with the
`/v1/chat/completions` prefix has only `model` set, to `"sw-gpt-4o"` (the
two prefixes are mutually exclusive, so no other routing case fires). -/
theorem c1_route_rewrite (path : String) (b : RequestBody) :
    (hasPrefixStr path "/anthropic/v1/messages" = true →
      routeRewrite path b =
        some { b with model := "sw-claude-3-5-sonnet", max_tokens := 2048 }) ∧
    (hasPrefixStr path "/v1/chat/completions" = true →
      routeRewrite path b = some { b with model := "sw-gpt-4o" }) := by
  constructor
  · intro h
    simp [routeRewrite, h]
  · intro h
    simp [routeRewrite, h, chat_not_anthro path h]

theorem c1_route_rewrite_witness :
    routeRewrite "/anthropic/v1/messages" ⟨none, "m", false, 5, "s"⟩ =
      some ⟨none, "sw-claude-3-5-sonnet", false, 2048, "s"⟩ ∧
    routeRewrite "/v1/chat/completions/extra" ⟨none, "m", false, 5, "s"⟩ =
      some ⟨none, "sw-gpt-4o", false, 5, "s"⟩ :=
  ⟨(c1_route_rewrite "/anthropic/v1/messages" ⟨none, "m", false, 5, "s"⟩).1 rfl,
   (c1_route_rewrite "/v1/chat/completions/extra" ⟨none, "m", false, 5, "s"⟩).2 rfl⟩

/-- C2 as stated is false: a field outside the fixed schema
(`temperature` here) is present in the inbound JSON and is not
overwritten by the routing rule, yet it is absent from the re-serialized
outbound body (`json.Unmarshal` into the fixed struct drops unknown
keys). -/
theorem c2_counterexample :
    proxyHandlerA ⟨"h", "i", "s", "u", "l"⟩ true
        ⟨"/v1/chat/completions", [], Body.json (Json.obj [("temperature", Json.num 7)])⟩ =
      HandlerResult.forward ⟨"h", "/v1/chat/completions",
        outboundHeaders ⟨"h", "i", "s", "u", "l"⟩ [],
        Json.obj [("messages", Json.null), ("model", Json.str "sw-gpt-4o")], false⟩ ∧
    lookupLast "temperature" [("temperature", Json.num 7)] = some (Json.num 7) ∧
    lookupField "temperature" [("messages", Json.null), ("model", Json.str "sw-gpt-4o")] = none :=
  ⟨rfl, rfl, rfl⟩

/-- C2 amended: schema fields present in the inbound JSON are preserved
in the outbound body unless overwritten by the routing rule or dropped
by `omitempty` at their zero value; fields outside the schema are
dropped. -/
theorem c2_schema_preservation (fs : List (String × Json)) (rb b' : RequestBody)
    (path : String) (hu : unmarshalRequestBody (Json.obj fs) = some rb)
    (hr : routeRewrite path rb = some b') :
    (∀ xs, lookupLast "messages" fs = some (Json.arr xs) →
      lookupField "messages" (marshalFields b') = some (Json.arr xs)) ∧
    (∀ s, lookupLast "system" fs = some (Json.str s) → s ≠ "" →
      lookupField "system" (marshalFields b') = some (Json.str s)) ∧
    (lookupLast "stream" fs = some (Json.bool true) →
      lookupField "stream" (marshalFields b') = some (Json.bool true)) ∧
    (∀ n, hasPrefixStr path "/v1/chat/completions" = true →
      lookupLast "max_tokens" fs = some (Json.num n) → n ≠ 0 →
      lookupField "max_tokens" (marshalFields b') = some (Json.num n)) ∧
    (∀ k, k ∉ (["messages", "model", "stream", "max_tokens", "system"] : List String) →
      lookupField k (marshalFields b') = none) := by
  obtain ⟨i1, i2, i3, i4, i5⟩ := unmarshal_obj_inv fs rb hu
  obtain ⟨f1, f2, f3⟩ := routeRewrite_frame path rb b' hr
  refine ⟨?_, ?_, ?_, ?_, ?_⟩
  · intro xs hx
    rw [hx] at i1
    unfold decodeMessages at i1
    dsimp only at i1
    split at i1
    · rw [Option.some.injEq] at i1
      rw [marshal_lookup_messages, f1, ← i1]
    · exact absurd i1 (by simp)
  · intro s hx hs
    rw [hx] at i5
    unfold decodeString at i5
    dsimp only at i5
    rw [Option.some.injEq] at i5
    rw [marshal_lookup_system, f3, ← i5]
    rw [if_neg hs]
  · intro hx
    rw [hx] at i3
    unfold decodeBool at i3
    dsimp only at i3
    rw [Option.some.injEq] at i3
    rw [marshal_lookup_stream, f2, ← i3]
    rfl
  · intro n hc hx hn
    have hmt := routeRewrite_max_tokens_chat path rb b' hc hr
    rw [hx] at i4
    unfold decodeInt at i4
    dsimp only at i4
    rw [Option.some.injEq] at i4
    rw [marshal_lookup_max_tokens, hmt, ← i4]
    rw [if_neg hn]
  · intro k hk
    exact marshal_lookup_other b' k hk

theorem c2_schema_preservation_witness :
    lookupField "messages"
        (marshalFields ⟨some [Json.obj [("role", Json.str "u")]], "sw-gpt-4o", true, 9, "sys"⟩) =
      some (Json.arr [Json.obj [("role", Json.str "u")]]) ∧
    lookupField "system"
        (marshalFields ⟨some [Json.obj [("role", Json.str "u")]], "sw-gpt-4o", true, 9, "sys"⟩) =
      some (Json.str "sys") ∧
    lookupField "stream"
        (marshalFields ⟨some [Json.obj [("role", Json.str "u")]], "sw-gpt-4o", true, 9, "sys"⟩) =
      some (Json.bool true) ∧
    lookupField "max_tokens"
        (marshalFields ⟨some [Json.obj [("role", Json.str "u")]], "sw-gpt-4o", true, 9, "sys"⟩) =
      some (Json.num 9) ∧
    lookupField "temperature"
        (marshalFields ⟨some [Json.obj [("role", Json.str "u")]], "sw-gpt-4o", true, 9, "sys"⟩) =
      none := by
  have h := c2_schema_preservation
    [("messages", Json.arr [Json.obj [("role", Json.str "u")]]),
     ("system", Json.str "sys"), ("stream", Json.bool true), ("max_tokens", Json.num 9)]
    ⟨some [Json.obj [("role", Json.str "u")]], "", true, 9, "sys"⟩
    ⟨some [Json.obj [("role", Json.str "u")]], "sw-gpt-4o", true, 9, "sys"⟩
    "/v1/chat/completions" rfl rfl
  exact ⟨h.1 _ rfl, h.2.1 "sys" rfl (by decide), h.2.2.1 rfl,
    h.2.2.2.1 9 rfl rfl (by decide), h.2.2.2.2 "temperature" (by decide)⟩

/-- C3 as stated is false for revision A: with `HOST` unset, a request
with readable body, valid JSON and a recognized path is answered with an
HTTP 500 whose condition (missing environment variable) is none of the
four listed failure kinds, and nothing is forwarded. -/
theorem c3_counterexample :
    proxyHandlerA ⟨"", "i", "s", "u", "l"⟩ true
        ⟨"/v1/chat/completions", [], Body.json (Json.obj [])⟩ =
      HandlerResult.localError 500 "Missing required environment variable: HOST" ∧
    "Missing required environment variable: HOST" ≠ "Failed to read request body" ∧
    "Missing required environment variable: HOST" ≠ "Invalid JSON in request body" ∧
    "Missing required environment variable: HOST" ≠ "Failed to modify request body" ∧
    "Missing required environment variable: HOST" ≠ "Unknown endpoint" :=
  ⟨rfl, by decide, by decide, by decide, by decide⟩

/-- C3 amended: revision B answers the caller directly (no forwarding)
exactly on body-read failure (500), unparsable body (400) and
unrecognized path (400); the re-encode failure branch exists in the code
but is unreachable for the fixed schema.  Revision A additionally fails
locally with 500 on the first missing required environment variable and
with 500 when the inbound `stream` flag is set but the client connection
cannot flush. -/
theorem c3_local_failures (env : Env) (cf : Bool) (r : Request) (s : Nat) (m : String) :
    (proxyHandlerB env r = .localError s m ↔
      (r.body = .readError ∧ s = 500 ∧ m = "Failed to read request body") ∨
      (r.body ≠ .readError ∧ parsedBody r.body = none ∧ s = 400 ∧
        m = "Invalid JSON in request body") ∨
      (∃ rb, parsedBody r.body = some rb ∧ routeRewrite r.path rb = none ∧
        s = 400 ∧ m = "Unknown endpoint")) ∧
    (proxyHandlerA env cf r = .localError s m ↔
      (∃ v, missingEnvVar env = some v ∧ s = 500 ∧
        m = "Missing required environment variable: " ++ v) ∨
      (missingEnvVar env = none ∧ r.body = .readError ∧ s = 500 ∧
        m = "Failed to read request body") ∨
      (missingEnvVar env = none ∧ r.body ≠ .readError ∧ parsedBody r.body = none ∧
        s = 400 ∧ m = "Invalid JSON in request body") ∨
      (missingEnvVar env = none ∧ ∃ rb, parsedBody r.body = some rb ∧
        routeRewrite r.path rb = none ∧ s = 400 ∧ m = "Unknown endpoint") ∨
      (missingEnvVar env = none ∧ ∃ rb rw, parsedBody r.body = some rb ∧
        routeRewrite r.path rb = some rw ∧ rb.stream = true ∧ cf = false ∧
        s = 500 ∧ m = "Streaming not supported")) :=
  ⟨proxyHandlerB_localError_iff env r s m, proxyHandlerA_localError_iff env cf r s m⟩

theorem c3_local_failures_witness :
    proxyHandlerB ⟨"h", "i", "s", "u", "l"⟩ ⟨"/v1/other", [], Body.json Json.null⟩ =
      HandlerResult.localError 400 "Unknown endpoint" :=
  (c3_local_failures ⟨"h", "i", "s", "u", "l"⟩ true
      ⟨"/v1/other", [], Body.json Json.null⟩ 400 "Unknown endpoint").1.mpr
    (Or.inr (Or.inr ⟨default, rfl, rfl, rfl, rfl⟩))

/-- C4: every request forwarded by either revision carries the ten
headers overwritten to the environment-determined values, regardless of
the caller-supplied header map. -/
theorem c4_outbound_headers (env : Env) (cf : Bool) (r : Request) :
    (∀ f, proxyHandlerA env cf r = .forward f → f.headers = outboundHeaders env r.headers) ∧
    (∀ g, proxyHandlerB env r = .forward g → g.headers = outboundHeaders env r.headers) ∧
    getHeader (outboundHeaders env r.headers) "Host" = some env.host ∧
    getHeader (outboundHeaders env r.headers) "Content-Type" = some "application/json" ∧
    getHeader (outboundHeaders env r.headers) "X-ID" = some env.x_id ∧
    getHeader (outboundHeaders env r.headers) "X-Signature" = some env.x_signature ∧
    getHeader (outboundHeaders env r.headers) "Accept" = some "*/*" ∧
    getHeader (outboundHeaders env r.headers) "Connection" = some "keep-alive" ∧
    getHeader (outboundHeaders env r.headers) "User-Agent" = some env.user_agent ∧
    getHeader (outboundHeaders env r.headers) "X-License" = some env.x_license ∧
    getHeader (outboundHeaders env r.headers) "Accept-Encoding" =
      some "br;q=1.0, gzip;q=0.9, deflate;q=0.8" ∧
    getHeader (outboundHeaders env r.headers) "Accept-Language" =
      some "en-US;q=1.0, en-IN;q=0.9" := by
  obtain ⟨s1, s2, s3, s4, s5, s6, s7, s8, s9, s10⟩ := outboundHeaders_spec env r.headers
  refine ⟨?_, ?_, s1, s2, s3, s4, s5, s6, s7, s8, s9, s10⟩
  · intro f hf
    obtain ⟨h1, rb1, rw1, hp1, hr1, hfe⟩ := proxyHandlerA_forward_inv env cf r f hf
    rw [hfe]
  · intro g hg
    obtain ⟨rb2, rw2, hp2, hr2, hge⟩ := proxyHandlerB_forward_inv env r g hg
    rw [hge]

theorem c4_outbound_headers_witness :
    getHeader (outboundHeaders ⟨"h", "i", "s", "u", "l"⟩ [("Host", "evil"), ("X-ID", "fake")])
      "Host" = some "h" :=
  (c4_outbound_headers ⟨"h", "i", "s", "u", "l"⟩ true
    ⟨"/v1/chat/completions", [("Host", "evil"), ("X-ID", "fake")], Body.json Json.null⟩).2.2.1

/-- C5 is wrong about the code: `NewSingleHostReverseProxy` is handed a
target URL that already ends in the request path, and its director joins
the target's path with the request path again, so the upstream request
path is the inbound path doubled, not the same path.  (Host and scheme
are as the claim says; the handler's own log line claims the single
path.) -/
theorem c5_path_doubled :
    targetURL ⟨"example.com", "i", "s", "u", "l"⟩ "/v1/chat/completions" =
      "https://example.com/v1/chat/completions" ∧
    upstreamURL ⟨"example.com", "i", "s", "u", "l"⟩ "/v1/chat/completions" =
      ⟨"https", "example.com", "/v1/chat/completions/v1/chat/completions"⟩ ∧
    "/v1/chat/completions/v1/chat/completions" ≠ "/v1/chat/completions" :=
  ⟨rfl, rfl, by decide⟩

/-- C6: after the shared routing switch, revision B's body differs from
revision A's only in the `stream` field, which revision B forces to
`true` (and serializes as `true`), while revision A leaves it at the
inbound value; revision B then replays the recorded upstream status,
headers and body verbatim whenever reading the recorded body succeeds. -/
theorem c6_revisions_agree (path : String) (rb b' : RequestBody)
    (h : routeRewrite path rb = some b') (resp : UpResponse) (bs : String)
    (hresp : resp.body = some bs) :
    (forceStream b').messages = b'.messages ∧
    (forceStream b').model = b'.model ∧
    (forceStream b').max_tokens = b'.max_tokens ∧
    (forceStream b').system = b'.system ∧
    (forceStream b').stream = true ∧
    b'.stream = rb.stream ∧
    lookupField "stream" (marshalFields (forceStream b')) = some (Json.bool true) ∧
    replayResponse resp = .replayed resp.status resp.headers bs := by
  obtain ⟨f1, f2, f3⟩ := routeRewrite_frame path rb b' h
  have hforce : (forceStream b').messages = b'.messages ∧ (forceStream b').model = b'.model ∧
      (forceStream b').max_tokens = b'.max_tokens ∧ (forceStream b').system = b'.system ∧
      (forceStream b').stream = true := by
    unfold forceStream
    by_cases hb : b'.stream = false
    · rw [if_pos hb]
      exact ⟨rfl, rfl, rfl, rfl, rfl⟩
    · rw [if_neg hb]
      exact ⟨rfl, rfl, rfl, rfl, by revert hb; cases b'.stream <;> simp⟩
  obtain ⟨g1, g2, g3, g4, g5⟩ := hforce
  refine ⟨g1, g2, g3, g4, g5, f2, ?_, ?_⟩
  · rw [marshal_lookup_stream, g5]
    rfl
  · unfold replayResponse
    rw [hresp]

theorem c6_revisions_agree_witness :
    (forceStream ⟨none, "sw-gpt-4o", false, 3, "s"⟩).stream = true ∧
    lookupField "stream" (marshalFields (forceStream ⟨none, "sw-gpt-4o", false, 3, "s"⟩)) =
      some (Json.bool true) ∧
    replayResponse ⟨502, [("X", "y")], some "resp"⟩ =
      ReplayResult.replayed 502 [("X", "y")] "resp" := by
  have h := c6_revisions_agree "/v1/chat/completions" ⟨none, "m", false, 3, "s"⟩
    ⟨none, "sw-gpt-4o", false, 3, "s"⟩ rfl ⟨502, [("X", "y")], some "resp"⟩ "resp" rfl
  exact ⟨h.2.2.2.2.1, h.2.2.2.2.2.2.1, h.2.2.2.2.2.2.2⟩

/-- C7: revision A's `createProxy` installs an error handler that
answers every upstream failure with HTTP 502 Bad Gateway; revision B's
`createProxy` installs no error handler (nor any other hook), leaving
the reverse-proxy primitive's default behaviour. -/
theorem c7_error_hooks (e : String) :
    proxyHooksA.errorHandler = some errorHandlerA ∧
    (errorHandlerA e).1 = 502 ∧
    proxyHooksB.errorHandler = none ∧
    proxyHooksB.directorLogs = false ∧
    proxyHooksB.modifiesResponse = false :=
  ⟨rfl, rfl, rfl, rfl, rfl⟩

/-- C8: revision A listens on the `PORT` environment value when
non-empty and on 8080 otherwise; revision B always listens on 443. -/
theorem c8_ports (p : String) :
    (p ≠ "" → resolvePortA p = p) ∧ resolvePortA "" = "8080" ∧ portB = "443" := by
  refine ⟨fun h => ?_, rfl, rfl⟩
  unfold resolvePortA
  rw [if_neg h]

theorem c8_ports_witness :
    resolvePortA "9090" = "9090" ∧ resolvePortA "" = "8080" ∧ portB = "443" :=
  ⟨(c8_ports "9090").1 (by decide), (c8_ports "9090").2.1, (c8_ports "9090").2.2⟩

/-- C9: serialization omits `model`, `system`, `stream` and `max_tokens`
at their Go zero values and always emits `messages` (as `null` for the
nil slice); the `/v1/chat/completions` route leaves `max_tokens`
unchanged, so a zero value there stays omitted. -/
theorem c9_omitempty (b : RequestBody) (path : String) (rb b' : RequestBody)
    (hc : hasPrefixStr path "/v1/chat/completions" = true)
    (hr : routeRewrite path rb = some b') :
    lookupField "model" (marshalFields b) =
      (if b.model = "" then none else some (Json.str b.model)) ∧
    lookupField "system" (marshalFields b) =
      (if b.system = "" then none else some (Json.str b.system)) ∧
    lookupField "stream" (marshalFields b) =
      (if b.stream then some (Json.bool true) else none) ∧
    lookupField "max_tokens" (marshalFields b) =
      (if b.max_tokens = 0 then none else some (Json.num b.max_tokens)) ∧
    lookupField "messages" (marshalFields b) =
      some (match b.messages with | none => Json.null | some xs => Json.arr xs) ∧
    b'.max_tokens = rb.max_tokens :=
  ⟨marshal_lookup_model b, marshal_lookup_system b, marshal_lookup_stream b,
   marshal_lookup_max_tokens b, marshal_lookup_messages b,
   routeRewrite_max_tokens_chat path rb b' hc hr⟩

theorem c9_omitempty_witness :
    lookupField "model" (marshalFields ⟨none, "", false, 0, ""⟩) = none ∧
    lookupField "system" (marshalFields ⟨none, "", false, 0, ""⟩) = none ∧
    lookupField "stream" (marshalFields ⟨none, "", false, 0, ""⟩) = none ∧
    lookupField "max_tokens" (marshalFields ⟨none, "", false, 0, ""⟩) = none ∧
    lookupField "messages" (marshalFields ⟨none, "", false, 0, ""⟩) = some Json.null := by
  have h := c9_omitempty ⟨none, "", false, 0, ""⟩ "/v1/chat/completions"
    ⟨none, "m", false, 0, ""⟩ ⟨none, "sw-gpt-4o", false, 0, ""⟩ rfl rfl
  exact ⟨h.1, h.2.1, h.2.2.1, h.2.2.2.1, h.2.2.2.2.1⟩

/-- C10 as stated is false: a request whose path falls under `/v1/` but
matches neither endpoint prefix still receives `Invalid JSON in request
body` (not `Unknown endpoint`) when its body does not parse, because the
body is parsed before the routing switch runs. -/
theorem c10_counterexample :
    muxMatches "/v1/embeddings" = true ∧
    hasPrefixStr "/v1/embeddings" "/anthropic/v1/messages" = false ∧
    hasPrefixStr "/v1/embeddings" "/v1/chat/completions" = false ∧
    proxyHandlerB ⟨"h", "i", "s", "u", "l"⟩ ⟨"/v1/embeddings", [], Body.malformed⟩ =
      HandlerResult.localError 400 "Invalid JSON in request body" ∧
    "Invalid JSON in request body" ≠ "Unknown endpoint" :=
  ⟨rfl, rfl, rfl, rfl, by decide⟩

/-- C10 amended: a request under the registered mux prefixes whose path
matches neither full endpoint prefix, whose body parses as JSON (and,
for revision A, with all required environment variables set) is answered
with HTTP 400 `Unknown endpoint` by both revisions and is never
forwarded; the switch tests the anthropic prefix first. -/
theorem c10_unknown_endpoint (env : Env) (cf : Bool) (r : Request) (rb : RequestBody)
    (_hmux : muxMatches r.path = true)
    (ha : hasPrefixStr r.path "/anthropic/v1/messages" = false)
    (hc : hasPrefixStr r.path "/v1/chat/completions" = false)
    (hp : parsedBody r.body = some rb)
    (he : missingEnvVar env = none) :
    proxyHandlerA env cf r = .localError 400 "Unknown endpoint" ∧
    proxyHandlerB env r = .localError 400 "Unknown endpoint" := by
  have hroute : routeRewrite r.path rb = none := by
    simp [routeRewrite, ha, hc]
  exact ⟨(proxyHandlerA_localError_iff env cf r 400 "Unknown endpoint").mpr
      (Or.inr (Or.inr (Or.inr (Or.inl ⟨he, rb, hp, hroute, rfl, rfl⟩)))),
    (proxyHandlerB_localError_iff env r 400 "Unknown endpoint").mpr
      (Or.inr (Or.inr ⟨rb, hp, hroute, rfl, rfl⟩))⟩

theorem c10_unknown_endpoint_witness :
    proxyHandlerA ⟨"h", "i", "s", "u", "l"⟩ true
        ⟨"/v1/embeddings", [], Body.json Json.null⟩ =
      HandlerResult.localError 400 "Unknown endpoint" ∧
    proxyHandlerB ⟨"h", "i", "s", "u", "l"⟩ ⟨"/v1/embeddings", [], Body.json Json.null⟩ =
      HandlerResult.localError 400 "Unknown endpoint" :=
  c10_unknown_endpoint ⟨"h", "i", "s", "u", "l"⟩ true
    ⟨"/v1/embeddings", [], Body.json Json.null⟩ default rfl rfl rfl rfl rfl
